import Mathlib

/-!
Verification of the natural-language specification of the
`terraform-provider-aws` sources against a shallow embedding of the code.

The embedding models each CRUD handler as a pure function from an
"environment" (the results the AWS API would return for each call the
handler makes) to an output record holding the returned diagnostics, the
trace of AWS calls and waiter invocations in execution order, and the
state effects (resource id set / cleared) that the handler performs.
Expand/flatten helpers, the acceptance-test rule matcher, the
security-group-rule identity hash and the generic `IsZero` helper are
modelled directly as pure functions.
-/

/-- Model of an AWS SDK error value: an error code plus a message, as
inspected by `tfawserr.ErrCodeEquals` / `tfawserr.ErrMessageContains`. -/
structure AWSErr where
  code : String
  msg : String
deriving DecidableEq

/-- Result of a finder such as `FindACLByName` / `FindFileSystemByID`:
either the resource, a `tfresource.NotFound` error, or another error. -/
inductive FindResult (α : Type) where
  | found (value : α)
  | notFound
  | err (e : AWSErr)
deriving DecidableEq

/-- Substring test, modelling the message check inside
`tfawserr.ErrMessageContains`. -/
def strContainsSub (s pat : String) : Bool :=
  (s.splitOn pat).length != 1

/-- Events recorded in a handler's execution trace, in order:
mutating AWS calls, waiter invocations (with the waiter's result),
and non-mutating describe/find calls. -/
inductive Ev where
  | mut (api : String) (res : Option AWSErr)
  | wait (api : String) (res : Option AWSErr)
  | readApi (api : String)
deriving DecidableEq

/-- Whether an event is a mutating AWS call. -/
def evIsMut : Ev → Bool
  | Ev.mut _ _ => true
  | _ => false

/-- Whether an event is a mutating AWS call that itself succeeded. -/
def evIsMutOk : Ev → Bool
  | Ev.mut _ none => true
  | _ => false

/-- Whether an event is a waiter invocation (successful or not). -/
def evIsWait : Ev → Bool
  | Ev.wait _ _ => true
  | _ => false

/-- Whether an event is a waiter invocation that returned without error. -/
def evIsOkWait : Ev → Bool
  | Ev.wait _ none => true
  | _ => false

/-- Whether a given API name occurs in the trace as a mutating call. -/
def calledAPI (api : String) (tr : List Ev) : Bool :=
  tr.any (fun e => match e with
    | Ev.mut a _ => a == api
    | _ => false)

/-- Property stated by the spec: every mutating call in the trace is
followed (strictly later) by a waiter invocation that returned without
error. -/
def waiterAfterEachB : List Ev → Bool
  | [] => true
  | e :: rest => (if evIsMut e then rest.any evIsOkWait else true) && waiterAfterEachB rest

/-- Weakened form that the code actually guarantees: every mutating call
that itself succeeded is followed by a waiter invocation that returned
without error. -/
def waiterAfterOkMutB : List Ev → Bool
  | [] => true
  | e :: rest => (if evIsMutOk e then rest.any evIsOkWait else true) && waiterAfterOkMutB rest

/-! ## MemoryDB ACL (src/unnamed/part_000) -/

/-- Server-side MemoryDB ACL state as returned by `FindACLByName`; only
the fields the handlers consume are modelled. -/
structure ACL where
  name : String
  userNames : List String
deriving DecidableEq

/-- Environment for `resourceACLRead`: the outcome of `FindACLByName`. -/
structure ACLReadEnv where
  find : FindResult ACL
deriving DecidableEq

/-- Output of a Read handler: diagnostics, trace, and whether the handler
cleared the resource id from state (`d.SetId("")`). -/
structure ReadOut where
  diags : List String
  trace : List Ev
  idCleared : Bool
deriving DecidableEq

/-- Shallow embedding of `resourceACLRead`. -/
def resourceACLRead (isNew : Bool) (env : ACLReadEnv) : ReadOut :=
  let t0 := [Ev.readApi "FindACLByName"]
  match env.find with
  | FindResult.notFound =>
      if !isNew then
        { diags := [], trace := t0, idCleared := true }
      else
        { diags := ["reading MemoryDB ACL: not found"], trace := t0, idCleared := false }
  | FindResult.err e =>
      { diags := ["reading MemoryDB ACL: " ++ e.code], trace := t0, idCleared := false }
  | FindResult.found _ =>
      { diags := [], trace := t0, idCleared := false }

/-- Environment for `resourceACLCreate`. -/
structure ACLCreateEnv where
  createErr : Option AWSErr
  waitErr : Option AWSErr
  readEnv : ACLReadEnv

/-- Output of a Create handler: diagnostics, trace, and the resource id
the handler stored in state (if any). -/
structure CreateOut where
  diags : List String
  trace : List Ev
  idSet : Option String
deriving DecidableEq

/-- Shallow embedding of `resourceACLCreate`. -/
def resourceACLCreate (name : String) (env : ACLCreateEnv) : CreateOut :=
  let t0 := [Ev.mut "CreateACL" env.createErr]
  match env.createErr with
  | some e =>
      { diags := ["creating MemoryDB ACL: " ++ e.code], trace := t0, idSet := none }
  | none =>
      let t1 := t0 ++ [Ev.wait "waitACLActive" env.waitErr]
      match env.waitErr with
      | some e =>
          { diags := ["waiting for MemoryDB ACL to be created: " ++ e.code], trace := t1, idSet := none }
      | none =>
          let r := resourceACLRead true env.readEnv
          { diags := r.diags, trace := t1 ++ r.trace, idSet := some name }

/-- The `UserNamesToAdd` list built by `resourceACLUpdate`: the new set
minus the old set (`newSet.Difference(oldSet)`). -/
def aclUserNamesToAdd (oldSet newSet : List String) : List String :=
  newSet.filter (fun u => !oldSet.contains u)

/-- The `UserNamesToRemove` list built by `resourceACLUpdate`: the old
set minus the new set, filtered to names still present in the
server-reported user names. -/
def aclUserNamesToRemove (oldSet newSet server : List String) : List String :=
  (oldSet.filter (fun u => !newSet.contains u)).filter (fun u => server.contains u)

/-- The `UpdateACLInput` assembled by `resourceACLUpdate`. -/
structure UpdateACLInput where
  userNamesToAdd : List String
  userNamesToRemove : List String
deriving DecidableEq

/-- Environment for `resourceACLUpdate`. -/
structure ACLUpdateEnv where
  find : FindResult ACL
  updateErr : Option AWSErr
  waitErr : Option AWSErr
  readEnv : ACLReadEnv

/-- Output of `resourceACLUpdate`, additionally exposing the
`UpdateACLInput` it assembled (when it got that far). -/
structure ACLUpdateOut where
  diags : List String
  trace : List Ev
  updateInput : Option UpdateACLInput
deriving DecidableEq

/-- Shallow embedding of `resourceACLUpdate`.  `hasChangesExceptTags`
models `d.HasChangesExcept("tags", "tags_all")`; `oldSet`/`newSet` model
`d.GetChange("user_names")`. -/
def resourceACLUpdate (hasChangesExceptTags : Bool) (oldSet newSet : List String)
    (env : ACLUpdateEnv) : ACLUpdateOut :=
  if hasChangesExceptTags then
    let toAdd := aclUserNamesToAdd oldSet newSet
    let tf := [Ev.readApi "FindACLByName"]
    match env.find with
    | FindResult.err e =>
        { diags := ["getting MemoryDB ACL current state: " ++ e.code], trace := tf, updateInput := none }
    | FindResult.notFound =>
        { diags := ["getting MemoryDB ACL current state: not found"], trace := tf, updateInput := none }
    | FindResult.found acl =>
        let toRemove := aclUserNamesToRemove oldSet newSet acl.userNames
        let inp : UpdateACLInput := { userNamesToAdd := toAdd, userNamesToRemove := toRemove }
        if !toAdd.isEmpty || !toRemove.isEmpty then
          let t1 := tf ++ [Ev.mut "UpdateACL" env.updateErr]
          match env.updateErr with
          | some e =>
              { diags := ["updating MemoryDB ACL: " ++ e.code], trace := t1, updateInput := some inp }
          | none =>
              let t2 := t1 ++ [Ev.wait "waitACLActive" env.waitErr]
              match env.waitErr with
              | some e =>
                  { diags := ["waiting for MemoryDB ACL to be modified: " ++ e.code], trace := t2, updateInput := some inp }
              | none =>
                  let r := resourceACLRead false env.readEnv
                  { diags := r.diags, trace := t2 ++ r.trace, updateInput := some inp }
        else
          let r := resourceACLRead false env.readEnv
          { diags := r.diags, trace := tf ++ r.trace, updateInput := some inp }
  else
    let r := resourceACLRead false env.readEnv
    { diags := r.diags, trace := r.trace, updateInput := none }

/-- Environment for a Delete handler: the result of the delete call and
of the deletion waiter. -/
structure DeleteEnv where
  deleteErr : Option AWSErr
  waitErr : Option AWSErr
deriving DecidableEq

/-- Output of a Delete handler. -/
structure DeleteOut where
  diags : List String
  trace : List Ev
deriving DecidableEq

/-- Shallow embedding of `resourceACLDelete`. -/
def resourceACLDelete (env : DeleteEnv) : DeleteOut :=
  let t0 := [Ev.mut "DeleteACL" env.deleteErr]
  match env.deleteErr with
  | some e =>
      if e.code = "ACLNotFoundFault" then
        { diags := [], trace := t0 }
      else
        { diags := ["deleting MemoryDB ACL: " ++ e.code], trace := t0 }
  | none =>
      let t1 := t0 ++ [Ev.wait "waitACLDeleted" env.waitErr]
      match env.waitErr with
      | some e =>
          { diags := ["waiting for MemoryDB ACL to be deleted: " ++ e.code], trace := t1 }
      | none =>
          { diags := [], trace := t1 }

/-! ## FSx OpenZFS file system (src/internal/service/fsx/openzfs_file_system.go) -/

/-- File-system record returned by `FindFileSystemByID`; the Read handler
only inspects which per-type configuration blocks are present. -/
structure FsxFileSystem where
  hasWindowsConfig : Bool
  hasLustreConfig : Bool
  hasOntapConfig : Bool
  hasOpenzfsConfig : Bool
deriving DecidableEq

/-- Environment for `resourceOpenzfsFileSystemRead`: the outcome of
`FindFileSystemByID` and of `FindVolumeByID` on the root volume. -/
structure FsxReadEnv where
  find : FindResult FsxFileSystem
  findVolumeErr : Option AWSErr
deriving DecidableEq

/-- Shallow embedding of `resourceOpenzfsFileSystemRead`. -/
def resourceOpenzfsFileSystemRead (isNew : Bool) (env : FsxReadEnv) : ReadOut :=
  let t0 := [Ev.readApi "FindFileSystemByID"]
  match env.find with
  | FindResult.notFound =>
      if !isNew then
        { diags := [], trace := t0, idCleared := true }
      else
        { diags := ["reading FSx OpenZFS File System: not found"], trace := t0, idCleared := false }
  | FindResult.err e =>
      { diags := ["reading FSx OpenZFS File System: " ++ e.code], trace := t0, idCleared := false }
  | FindResult.found fs =>
      if fs.hasWindowsConfig then
        { diags := ["expected FSx OpenZFS File System, found FSx Windows File System"], trace := t0, idCleared := false }
      else if fs.hasLustreConfig then
        { diags := ["expected FSx OpenZFS File System, found FSx Lustre File System"], trace := t0, idCleared := false }
      else if fs.hasOntapConfig then
        { diags := ["expected FSx OpeZFS File System, found FSx ONTAP File System"], trace := t0, idCleared := false }
      else if !fs.hasOpenzfsConfig then
        { diags := ["describing FSx OpenZFS File System: empty Openzfs configuration"], trace := t0, idCleared := false }
      else
        let t1 := t0 ++ [Ev.readApi "FindVolumeByID"]
        match env.findVolumeErr with
        | some e =>
            { diags := ["reading FSx OpenZFS Root Volume Configuration: " ++ e.code], trace := t1, idCleared := false }
        | none =>
            { diags := [], trace := t1, idCleared := false }

/-- Environment for `resourceOpenzfsFileSystemCreate`: whether
`backup_id` is configured (which selects `CreateFileSystemFromBackup`
over `CreateFileSystem`), the create result, the waiter result, and the
Read tail's environment. -/
structure FsxCreateEnv where
  hasBackupId : Bool
  createErr : Option AWSErr
  waitErr : Option AWSErr
  readEnv : FsxReadEnv
deriving DecidableEq

/-- Shallow embedding of `resourceOpenzfsFileSystemCreate`.  Note the id
is stored in state before `waitFileSystemCreated` runs. -/
def resourceOpenzfsFileSystemCreate (fsId : String) (env : FsxCreateEnv) : CreateOut :=
  let api := if env.hasBackupId then "CreateFileSystemFromBackup" else "CreateFileSystem"
  let t0 := [Ev.mut api env.createErr]
  match env.createErr with
  | some e =>
      { diags := ["creating FSx OpenZFS File System: " ++ e.code], trace := t0, idSet := none }
  | none =>
      let t1 := t0 ++ [Ev.wait "waitFileSystemCreated" env.waitErr]
      match env.waitErr with
      | some e =>
          { diags := ["waiting for FSx OpenZFS File System create: " ++ e.code], trace := t1, idSet := some fsId }
      | none =>
          let r := resourceOpenzfsFileSystemRead true env.readEnv
          { diags := r.diags, trace := t1 ++ r.trace, idSet := some fsId }

/-- Environment for `resourceOpenzfsFileSystemUpdate`. -/
structure FsxUpdateEnv where
  hasChangesExceptTags : Bool
  updateErr : Option AWSErr
  waitUpdatedErr : Option AWSErr
  waitAdminErr : Option AWSErr
  hasRootVolumeChange : Bool
  updateVolumeErr : Option AWSErr
  waitVolumeErr : Option AWSErr
  readEnv : FsxReadEnv
deriving DecidableEq

/-- Output of an Update handler (diagnostics and trace). -/
structure UpdateOut where
  diags : List String
  trace : List Ev
deriving DecidableEq

/-- Shallow embedding of `resourceOpenzfsFileSystemUpdate`. -/
def resourceOpenzfsFileSystemUpdate (env : FsxUpdateEnv) : UpdateOut :=
  if env.hasChangesExceptTags then
    let t0 := [Ev.mut "UpdateFileSystem" env.updateErr]
    match env.updateErr with
    | some e =>
        { diags := ["updating FSx OpenZFS File System: " ++ e.code], trace := t0 }
    | none =>
        let t1 := t0 ++ [Ev.wait "waitFileSystemUpdated" env.waitUpdatedErr]
        match env.waitUpdatedErr with
        | some e =>
            { diags := ["waiting for FSx OpenZFS File System update: " ++ e.code], trace := t1 }
        | none =>
            let t2 := t1 ++ [Ev.wait "waitAdministrativeActionCompleted" env.waitAdminErr]
            match env.waitAdminErr with
            | some e =>
                { diags := ["waiting for FSx OpenZFS File System update: " ++ e.code], trace := t2 }
            | none =>
                if env.hasRootVolumeChange then
                  let t3 := t2 ++ [Ev.mut "UpdateVolume" env.updateVolumeErr]
                  match env.updateVolumeErr with
                  | some e =>
                      { diags := ["updating FSx OpenZFS Root Volume: " ++ e.code], trace := t3 }
                  | none =>
                      let t4 := t3 ++ [Ev.wait "waitVolumeUpdated" env.waitVolumeErr]
                      match env.waitVolumeErr with
                      | some e =>
                          { diags := ["waiting for FSx OpenZFS Root Volume update: " ++ e.code], trace := t4 }
                      | none =>
                          let r := resourceOpenzfsFileSystemRead false env.readEnv
                          { diags := r.diags, trace := t4 ++ r.trace }
                else
                  let r := resourceOpenzfsFileSystemRead false env.readEnv
                  { diags := r.diags, trace := t2 ++ r.trace }
  else
    let r := resourceOpenzfsFileSystemRead false env.readEnv
    { diags := r.diags, trace := r.trace }

/-- Shallow embedding of `resourceOpenzfsFileSystemDelete`. -/
def resourceOpenzfsFileSystemDelete (env : DeleteEnv) : DeleteOut :=
  let t0 := [Ev.mut "DeleteFileSystem" env.deleteErr]
  match env.deleteErr with
  | some e =>
      if e.code = "FileSystemNotFound" then
        { diags := [], trace := t0 }
      else
        { diags := ["deleting FSx OpenZFS File System: " ++ e.code], trace := t0 }
  | none =>
      let t1 := t0 ++ [Ev.wait "waitFileSystemDeleted" env.waitErr]
      match env.waitErr with
      | some e =>
          { diags := ["waiting for FSx OpenZFS File System delete: " ++ e.code], trace := t1 }
      | none =>
          { diags := [], trace := t1 }

/-! ## FSx disk IOPS configuration expand/flatten -/

/-- Dynamic value stored in a Terraform schema map
(`map[string]interface...`); only the variants the IOPS configuration
uses are modelled. -/
inductive TFValue where
  | str (v : String)
  | int (v : Int)
  | bool (v : Bool)
deriving DecidableEq

/-- One element of the `disk_iops_configuration` list: the `mode` and
`iops` keys (a missing key or a value of the wrong dynamic type makes
the corresponding Go type assertion fail, modelled by `none` /
a non-matching variant). -/
structure DiskIopsMapEntry where
  mode : Option TFValue
  iops : Option TFValue
deriving DecidableEq

/-- The AWS SDK struct `fsx.DiskIopsConfiguration`. -/
structure DiskIopsConfiguration where
  Mode : Option String
  Iops : Option Int
deriving DecidableEq

/-- Shallow embedding of `expandOpenzfsFileDiskIopsConfiguration`. -/
def expandOpenzfsFileDiskIopsConfiguration (cfg : List DiskIopsMapEntry) :
    Option DiskIopsConfiguration :=
  match cfg with
  | [] => none
  | conf :: _ =>
    let mode : Option String :=
      match conf.mode with
      | some (TFValue.str v) => if v.length > 0 then some v else none
      | _ => none
    let iops : Option Int :=
      match conf.iops with
      | some (TFValue.int v) => some v
      | _ => none
    some { Mode := mode, Iops := iops }

/-- Shallow embedding of `flattenOpenzfsFileDiskIopsConfiguration`. -/
def flattenOpenzfsFileDiskIopsConfiguration (rs : Option DiskIopsConfiguration) :
    List DiskIopsMapEntry :=
  match rs with
  | none => []
  | some r => [{ mode := r.Mode.map TFValue.str, iops := r.Iops.map TFValue.int }]

/-! ## CloudTrail trail (src/internal/service/apigateway/usage_plan_test.go) -/

/-- Retryability classification inside `resourceCloudTrailCreate`'s
retry closure: `InvalidCloudWatchLogsRoleArnException` or
`InvalidCloudWatchLogsLogGroupArnException` whose message contains
"Access denied.". -/
def retryableCT (e : AWSErr) : Bool :=
  (e.code == "InvalidCloudWatchLogsRoleArnException" && strContainsSub e.msg "Access denied.")
    || (e.code == "InvalidCloudWatchLogsLogGroupArnException" && strContainsSub e.msg "Access denied.")

/-- Outcome of `retry.RetryContext`: success, a non-retryable error
returned as-is, or a timeout while the last error was retryable. -/
inductive LoopOut where
  | ok
  | failedNR (e : AWSErr)
  | timedOut (e : AWSErr)
deriving DecidableEq

/-- Shallow embedding of `retry.RetryContext` around `CreateTrail`:
`res k` is the result of the k-th `CreateTrail` attempt, `fuel` is the
number of retries the timeout still allows (the first attempt is always
made), `start` the index of the next attempt.  Returns the index after
the last attempt made and the loop outcome. -/
def retryLoop (res : Nat → Option AWSErr) : Nat → Nat → Nat × LoopOut
  | 0, start =>
      match res start with
      | none => (start + 1, LoopOut.ok)
      | some e =>
          match retryableCT e with
          | true => (start + 1, LoopOut.timedOut e)
          | false => (start + 1, LoopOut.failedNR e)
  | fuel + 1, start =>
      match res start with
      | none => (start + 1, LoopOut.ok)
      | some e =>
          match retryableCT e with
          | true => retryLoop res fuel (start + 1)
          | false => (start + 1, LoopOut.failedNR e)

/-- Environment for `resourceCloudTrailRead`. -/
structure CTReadEnv where
  describeErr : Option AWSErr
  trailFound : Bool
  logStatusErr : Option AWSErr
  eventSelErr : Option AWSErr
  hasCustomEventSelectors : Bool
  hasInsightSelectors : Bool
  insightSelErr : Option AWSErr
deriving DecidableEq

/-- Shallow embedding of `resourceCloudTrailRead`.  CloudTrail does not
return a NotFound error; the trail is simply absent from the
`DescribeTrails` response (`trailFound = false`). -/
def resourceCloudTrailRead (isNew : Bool) (env : CTReadEnv) : ReadOut :=
  let t0 := [Ev.readApi "DescribeTrails"]
  match env.describeErr with
  | some _ =>
      { diags := ["reading CloudTrail Trail: not found after creation"], trace := t0, idCleared := false }
  | none =>
      if !env.trailFound && !isNew then
        { diags := [], trace := t0, idCleared := true }
      else if !env.trailFound && isNew then
        { diags := ["reading CloudTrail Trail: not found after creation"], trace := t0, idCleared := false }
      else
        let t1 := t0 ++ [Ev.readApi "GetTrailStatus"]
        match env.logStatusErr with
        | some e =>
            { diags := ["reading CloudTrail Trail: " ++ e.code], trace := t1, idCleared := false }
        | none =>
            let t2 := t1 ++ [Ev.readApi "GetEventSelectors"]
            match env.eventSelErr with
            | some e =>
                { diags := ["reading CloudTrail Trail: " ++ e.code], trace := t2, idCleared := false }
            | none =>
                if env.hasInsightSelectors then
                  let t3 := t2 ++ [Ev.readApi "GetInsightSelectors"]
                  match env.insightSelErr with
                  | some e =>
                      if e.code = "InsightNotEnabledException" then
                        { diags := [], trace := t3, idCleared := false }
                      else
                        { diags := ["getting Cloud Trail Insight Selectors: " ++ e.code], trace := t3, idCleared := false }
                  | none =>
                      { diags := [], trace := t3, idCleared := false }
                else
                  { diags := [], trace := t2, idCleared := false }

/-- Environment for `resourceCloudTrailCreate`: the per-attempt
`CreateTrail` results, the retry budget, the optional post-create steps
(`enable_logging`, event/advanced/insight selectors) with their results,
and the Read tail's environment. -/
structure CTCreateEnv where
  fuel : Nat
  res : Nat → Option AWSErr
  enableLogging : Bool
  setLoggingErr : Option AWSErr
  hasEventSel : Bool
  eventSelErr : Option AWSErr
  hasAdvEventSel : Bool
  advEventSelErr : Option AWSErr
  hasInsightSel : Bool
  insightSelErr : Option AWSErr
  readEnv : CTReadEnv

/-- Trace of the first `n` `CreateTrail` attempts. -/
def createTrailEvents (res : Nat → Option AWSErr) (n : Nat) : List Ev :=
  (List.range n).map (fun k => Ev.mut "CreateTrail" (res k))

/-- One optional mutating post-create step of `resourceCloudTrailCreate`
(returns either the extended trace, or the diagnostics and trace on
error). -/
def ctStep (flag : Bool) (api : String) (errv : Option AWSErr) (emsg : String)
    (tr : List Ev) : List Ev ⊕ (List String × List Ev) :=
  if flag then
    let t1 := tr ++ [Ev.mut api errv]
    match errv with
    | some e => Sum.inr ([emsg ++ e.code], t1)
    | none => Sum.inl t1
  else Sum.inl tr

/-- Post-create phase of `resourceCloudTrailCreate`, after the
`CreateTrail` call finally succeeded: the optional logging/selector
calls and the Read tail. -/
def cloudTrailAfterCreate (env : CTCreateEnv) (tr : List Ev) : CreateOut :=
  match ctStep env.enableLogging "StartLogging" env.setLoggingErr "creating CloudTrail: " tr with
  | Sum.inr p => { diags := p.1, trace := p.2, idSet := some "trail-name" }
  | Sum.inl t1 =>
  match ctStep env.hasEventSel "PutEventSelectors" env.eventSelErr "creating CloudTrail: " t1 with
  | Sum.inr p => { diags := p.1, trace := p.2, idSet := some "trail-name" }
  | Sum.inl t2 =>
  match ctStep env.hasAdvEventSel "PutEventSelectors" env.advEventSelErr "creating CloudTrail: " t2 with
  | Sum.inr p => { diags := p.1, trace := p.2, idSet := some "trail-name" }
  | Sum.inl t3 =>
  match ctStep env.hasInsightSel "PutInsightSelectors" env.insightSelErr "creating CloudTrail: " t3 with
  | Sum.inr p => { diags := p.1, trace := p.2, idSet := some "trail-name" }
  | Sum.inl t4 =>
      let r := resourceCloudTrailRead true env.readEnv
      { diags := r.diags, trace := t4 ++ r.trace, idSet := some "trail-name" }

/-- Shallow embedding of `resourceCloudTrailCreate`: the bounded retry
loop around `CreateTrail`, one extra attempt if the loop timed out, then
the optional logging/selector calls and the Read tail.  None of the
mutating calls is followed by a waiter. -/
def resourceCloudTrailCreate (env : CTCreateEnv) : CreateOut :=
  let lr := retryLoop env.res env.fuel 0
  let afterRetry : Nat × Option AWSErr :=
    match lr.2 with
    | LoopOut.ok => (lr.1, none)
    | LoopOut.failedNR e => (lr.1, some e)
    | LoopOut.timedOut _ => (lr.1 + 1, env.res lr.1)
  let n := afterRetry.1
  let tr := createTrailEvents env.res n
  match afterRetry.2 with
  | some e =>
      { diags := ["creating CloudTrail: " ++ e.code], trace := tr, idSet := none }
  | none => cloudTrailAfterCreate env tr

/-! ## EC2 security group rules (src/internal/service/ec2/vpc_security_group_rule_test.go) -/

/-- The AWS SDK struct `ec2.IpRange`. -/
structure IpRange where
  cidrIp : Option String
deriving DecidableEq

/-- The AWS SDK struct `ec2.Ipv6Range`. -/
structure Ipv6Range where
  cidrIpv6 : Option String
deriving DecidableEq

/-- The AWS SDK struct `ec2.UserIdGroupPair`. -/
structure UserIdGroupPair where
  userId : Option String := none
  groupId : Option String := none
  groupName : Option String := none
deriving DecidableEq

/-- The AWS SDK struct `ec2.PrefixListId`. -/
structure PrefixListId where
  listId : Option String
deriving DecidableEq

/-- The AWS SDK struct `ec2.IpPermission`. -/
structure IpPermission where
  ipProtocol : Option String := none
  fromPort : Option Int := none
  toPort : Option Int := none
  ipRanges : List IpRange := []
  ipv6Ranges : List Ipv6Range := []
  userIdGroupPairs : List UserIdGroupPair := []
  prefixListIds : List PrefixListId := []
deriving DecidableEq

/-- The AWS SDK struct `ec2.SecurityGroup` (the two rule lists). -/
structure SecurityGroup where
  ipPermissions : List IpPermission
  ipPermissionsEgress : List IpPermission
deriving DecidableEq

/-- Port/protocol agreement as coded: a mismatch only counts when both
sides set the field. -/
def intOptMatch (pv rv : Option Int) : Bool :=
  match pv, rv with
  | some a, some b => a == b
  | _, _ => true

/-- String-field agreement as coded: a mismatch only counts when both
sides set the field. -/
def strOptMatch (pv rv : Option String) : Bool :=
  match pv, rv with
  | some a, some b => a == b
  | _, _ => true

/-- Number of pairs of equal non-nil entries between the expected list
and the rule's list, counted with multiplicity: this is the total number
of decrements the Go nested loops apply to `remaining`. -/
def countMatchingPairs (ps rs : List (Option String)) : Nat :=
  (ps.map (fun pv =>
    match pv with
    | none => 0
    | some v => (rs.filter (fun rv => rv == some v)).length)).sum

/-- Acceptance of one candidate rule `r` against the expected permission
`p`, exactly as the body of the Go `for _, r := range rules` loop: each
category's `remaining` counter must end at zero or below. -/
def ruleMatchesGo (p r : IpPermission) : Bool :=
  intOptMatch p.toPort r.toPort
    && intOptMatch p.fromPort r.fromPort
    && strOptMatch p.ipProtocol r.ipProtocol
    && decide (p.ipRanges.length ≤
        countMatchingPairs (p.ipRanges.map (fun x => x.cidrIp)) (r.ipRanges.map (fun x => x.cidrIp)))
    && decide (p.ipv6Ranges.length ≤
        countMatchingPairs (p.ipv6Ranges.map (fun x => x.cidrIpv6)) (r.ipv6Ranges.map (fun x => x.cidrIpv6)))
    && decide (p.userIdGroupPairs.length ≤
        countMatchingPairs (p.userIdGroupPairs.map (fun x => x.groupId)) (r.userIdGroupPairs.map (fun x => x.groupId)))
    && decide (p.prefixListIds.length ≤
        countMatchingPairs (p.prefixListIds.map (fun x => x.listId)) (r.prefixListIds.map (fun x => x.listId)))

/-- The Go loop keeps the last matching rule in `matchingRule`. -/
def findMatchingRule (p : IpPermission) (rules : List IpPermission) : Option IpPermission :=
  rules.foldl (fun acc r => if ruleMatchesGo p r then some r else acc) none

/-- Default expected permission substituted when `p == nil`
(tcp, 80-8000, 10.0.0.0/8). -/
def defaultPermission : IpPermission :=
  { ipProtocol := some "tcp", fromPort := some 80, toPort := some 8000,
    ipRanges := [{ cidrIp := some "10.0.0.0/8" }] }

/-- Rule list selected for a rule type: `IpPermissions` for "ingress",
`IpPermissionsEgress` otherwise. -/
def rulesForType (group : SecurityGroup) (ruleType : String) : List IpPermission :=
  if ruleType = "ingress" then group.ipPermissions else group.ipPermissionsEgress

/-- Shallow embedding of the matching core of
`testAccCheckSecurityGroupRuleAttributes` (the part after the Terraform
state lookups succeed). -/
def testAccCheckSecurityGroupRuleAttributes (group : SecurityGroup)
    (p0 : Option IpPermission) (ruleType : String) : Except String Unit :=
  let p := p0.getD defaultPermission
  let rules := rulesForType group ruleType
  if rules.isEmpty then Except.error "No IPPerms"
  else
    match findMatchingRule p rules with
    | some _ => Except.ok ()
    | none => Except.error "Error here: looking for permission, was not found in rules"

/-- Definition following the SPEC's words for claim C2, to be compared
with the code: a rule `r` matches `p` when the three scalar fields agree
whenever both sides set them, and every CIDR block / source group id /
list id actually listed in `p` also occurs among `r`'s corresponding
entries. -/
def specRuleMatches (p r : IpPermission) : Bool :=
  intOptMatch p.toPort r.toPort
    && intOptMatch p.fromPort r.fromPort
    && strOptMatch p.ipProtocol r.ipProtocol
    && (p.ipRanges.all (fun ip =>
          match ip.cidrIp with
          | none => true
          | some v => (r.ipRanges.map (fun x => x.cidrIp)).contains (some v)))
    && (p.ipv6Ranges.all (fun ip =>
          match ip.cidrIpv6 with
          | none => true
          | some v => (r.ipv6Ranges.map (fun x => x.cidrIpv6)).contains (some v)))
    && (p.userIdGroupPairs.all (fun ip =>
          match ip.groupId with
          | none => true
          | some v => (r.userIdGroupPairs.map (fun x => x.groupId)).contains (some v)))
    && (p.prefixListIds.all (fun ip =>
          match ip.listId with
          | none => true
          | some v => (r.prefixListIds.map (fun x => x.listId)).contains (some v)))

/-- Success condition asserted by claim C2 (spec side). -/
def specCheckSucceeds (group : SecurityGroup) (p0 : Option IpPermission)
    (ruleType : String) : Bool :=
  let p := p0.getD defaultPermission
  let rules := rulesForType group ruleType
  !rules.isEmpty && rules.any (fun r => specRuleMatches p r)

/-! ## Security-group-rule identity hash

The function `IPPermissionIDHash` itself lives in
`internal/service/ec2/vpc_security_group_rule.go`, which is not among
the provided sources; only its test (`TestIPPermissionIDHash`) is.  The
definitions below are modelled from the spec's description of the
"security-group-rule hash-based identity" together with the test's five
hardcoded input/output vectors, which they reproduce exactly: a
deterministic buffer of the group id, ports, protocol, rule type and the
sorted rule entries, hashed with `hashcode.String` (CRC-32/IEEE, an
identity on 64-bit `int`). -/

/-- One round of the reflected CRC-32 bit loop (polynomial 0xEDB88320). -/
def crc32Round (c : Nat) : Nat :=
  if c % 2 = 1 then (c / 2) ^^^ 0xEDB88320 else c / 2

/-- Iterated CRC-32 bit rounds. -/
def crc32Bits : Nat → Nat → Nat
  | c, 0 => c
  | c, n + 1 => crc32Bits (crc32Round c) n

/-- Fold one byte into the CRC-32 state. -/
def crc32Update (crc b : Nat) : Nat :=
  crc32Bits (crc ^^^ b) 8

/-- Fold of the CRC-32 register over the bytes of a character list. -/
def crc32Fold (crc : Nat) (l : List Char) : Nat :=
  l.foldl (fun c ch => crc32Update c (ch.toNat % 256)) crc

/-- CRC-32/IEEE of the UTF-8 bytes of an ASCII string. -/
def crc32OfString (s : String) : Nat :=
  crc32Fold 0xFFFFFFFF s.data ^^^ 0xFFFFFFFF

/-- Modelled from the spec: `create.StringHashcode`, the hash used by
the security-group-rule identity.  On a 64-bit platform the Go `int`
cast of the CRC-32 value is already non-negative, so the function is the
CRC-32 itself. -/
def StringHashcode (s : String) : Nat :=
  crc32OfString s

/-- Bytewise lexicographic comparison of character lists, matching Go's
`<` on (ASCII) strings. -/
def charListLt : List Char → List Char → Bool
  | [], [] => false
  | [], _ :: _ => true
  | _ :: _, [] => false
  | a :: as, b :: bs =>
      if a.toNat < b.toNat then true
      else if b.toNat < a.toNat then false
      else charListLt as bs

/-- Go's `<` on strings. -/
def strLt (a b : String) : Bool := charListLt a.data b.data

/-- Go's `<=` on strings. -/
def strLe (a b : String) : Bool := strLt a b || a == b

/-- Insertion of a string into a sorted list (ascending). -/
def insertSorted (x : String) : List String → List String
  | [] => [x]
  | y :: ys => if strLe x y then x :: y :: ys else y :: insertSorted x ys

/-- Sorting of strings, modelling Go's `sort.Strings`. -/
def sortStrings (l : List String) : List String :=
  l.foldr insertSorted []

/-- Ordering on `UserIdGroupPair` values, modelling the Go `ByGroupPair`
comparator: by group id when both are set, otherwise by group name. -/
def groupPairLess (a b : UserIdGroupPair) : Bool :=
  match a.groupId, b.groupId with
  | some x, some y => strLt x y
  | _, _ =>
    match a.groupName, b.groupName with
    | some x, some y => strLt x y
    | _, _ => false

/-- Insertion of a group pair into a sorted list. -/
def insertGroupPair (x : UserIdGroupPair) : List UserIdGroupPair → List UserIdGroupPair
  | [] => [x]
  | y :: ys => if groupPairLess x y then x :: y :: ys else y :: insertGroupPair x ys

/-- Sorting of group pairs by `groupPairLess`. -/
def sortGroupPairs (l : List UserIdGroupPair) : List UserIdGroupPair :=
  l.foldr insertGroupPair []

/-- Modelled from the spec: the identity buffer hashed by
`IPPermissionIDHash` — the group id, the ports when positive, the
protocol, the rule type, then each entry list sorted; validated (through
`IPPermissionIDHash`) against all five hardcoded identifiers in
`TestIPPermissionIDHash`. -/
def ipPermissionBuffer (sg_id ruleType : String) (ip : IpPermission) : String :=
  let buf := sg_id ++ "-"
  let buf :=
    match ip.fromPort with
    | some p => if p > 0 then buf ++ toString p ++ "-" else buf
    | none => buf
  let buf :=
    match ip.toPort with
    | some p => if p > 0 then buf ++ toString p ++ "-" else buf
    | none => buf
  let buf := buf ++ ip.ipProtocol.getD "" ++ "-"
  let buf := buf ++ ruleType ++ "-"
  let buf := buf ++ String.join
    ((sortStrings (ip.ipRanges.map (fun r => r.cidrIp.getD ""))).map (fun v => v ++ "-"))
  let buf := buf ++ String.join
    ((sortStrings (ip.ipv6Ranges.map (fun r => r.cidrIpv6.getD ""))).map (fun v => v ++ "-"))
  let buf := buf ++ String.join
    ((sortStrings (ip.prefixListIds.map (fun r => r.listId.getD ""))).map (fun v => v ++ "-"))
  let buf := buf ++ String.join
    ((sortGroupPairs ip.userIdGroupPairs).map (fun pr =>
      (match pr.groupId with
       | some g => g ++ "-"
       | none => "-") ++
      (match pr.groupName with
       | some g => g ++ "-"
       | none => "-")))
  buf

/-- Modelled from the spec: `IPPermissionIDHash` formats the hashed
identity buffer as "sgrule-" followed by the decimal hash value. -/
def IPPermissionIDHash (sg_id ruleType : String) (ip : IpPermission) : String :=
  "sgrule-" ++ toString (StringHashcode (ipPermissionBuffer sg_id ruleType ip))

/-- The `simple` test permission of `TestIPPermissionIDHash`. -/
def permSimple : IpPermission :=
  { ipProtocol := some "tcp", fromPort := some 80, toPort := some 8000,
    ipRanges := [{ cidrIp := some "10.0.0.0/8" }] }

/-- The `egress_all` test permission of `TestIPPermissionIDHash`. -/
def permEgressAll : IpPermission :=
  { ipProtocol := some "-1", ipRanges := [{ cidrIp := some "10.0.0.0/8" }] }

/-- The `vpc_security_group_source` test permission. -/
def permVpcSecurityGroupSource : IpPermission :=
  { ipProtocol := some "tcp", fromPort := some 80, toPort := some 8000,
    userIdGroupPairs :=
      [{ userId := some "987654321", groupId := some "sg-12345678" },
       { userId := some "123456789", groupId := some "sg-987654321" },
       { userId := some "123456789", groupId := some "sg-12345678" }] }

/-- The `security_group_source` test permission. -/
def permSecurityGroupSource : IpPermission :=
  { ipProtocol := some "tcp", fromPort := some 80, toPort := some 8000,
    userIdGroupPairs :=
      [{ userId := some "987654321", groupName := some "my-security-group" },
       { userId := some "123456789", groupName := some "my-security-group" },
       { userId := some "123456789", groupName := some "my-other-security-group" }] }

/-! ## Resource definitions (ResourceACL, ResourceOpenzfsFileSystem) -/

/-- Enumeration of the handler functions defined in the sources, used as
the values stored in a `schema.Resource`. -/
inductive HandlerFn where
  | aclCreateFn
  | aclReadFn
  | aclUpdateFn
  | aclDeleteFn
  | fsxCreateFn
  | fsxReadFn
  | fsxUpdateFn
  | fsxDeleteFn
deriving DecidableEq

/-- The handler fields of a `schema.Resource` value (plugin SDK v2):
the four `...WithoutTimeout` CRUD handlers, the deprecated `Exists`
field, and whether an `Importer` is configured. -/
structure SchemaResource where
  createWithoutTimeout : Option HandlerFn
  readWithoutTimeout : Option HandlerFn
  updateWithoutTimeout : Option HandlerFn
  deleteWithoutTimeout : Option HandlerFn
  existsFn : Option HandlerFn
  hasImporter : Bool
deriving DecidableEq

/-- Shallow embedding of `ResourceACL()`: the handler fields it sets. -/
def ResourceACL : SchemaResource :=
  { createWithoutTimeout := some HandlerFn.aclCreateFn,
    readWithoutTimeout := some HandlerFn.aclReadFn,
    updateWithoutTimeout := some HandlerFn.aclUpdateFn,
    deleteWithoutTimeout := some HandlerFn.aclDeleteFn,
    existsFn := none,
    hasImporter := true }

/-- Shallow embedding of `ResourceOpenzfsFileSystem()`: the handler
fields it sets. -/
def ResourceOpenzfsFileSystem : SchemaResource :=
  { createWithoutTimeout := some HandlerFn.fsxCreateFn,
    readWithoutTimeout := some HandlerFn.fsxReadFn,
    updateWithoutTimeout := some HandlerFn.fsxUpdateFn,
    deleteWithoutTimeout := some HandlerFn.fsxDeleteFn,
    existsFn := none,
    hasImporter := true }

/-! ## internal/types IsZero -/

/-- Zero value of a Go type, as `reflect.Value.IsZero` compares against
(the all-fields-zero value for a struct, 0 for numbers, "" for
strings). -/
class GoZero (α : Type) where
  zeroValue : α

/-- Shallow embedding of `types.IsZero`: a nil pointer (modelled by
`none`) or a pointer to the zero value of the pointee type. -/
def IsZero {α : Type} [GoZero α] [DecidableEq α] (v : Option α) : Bool :=
  match v with
  | none => true
  | some x => decide (x = GoZero.zeroValue)

/-- Sample struct type used to instantiate `IsZero` at a concrete Go
type. -/
structure GoPoint where
  x : Int
  y : Int
deriving DecidableEq

instance : GoZero GoPoint :=
  ⟨{ x := 0, y := 0 }⟩

/-! ## Claim C4 -/

/-- Claim C4 counterexample: `ResourceACL` does not carry all five of
Create/Read/Update/Delete/Exists — the `Exists` handler field is not
set (and neither is it on `ResourceOpenzfsFileSystem`). -/
theorem c4_counterexample :
    ¬ (ResourceACL.createWithoutTimeout.isSome ∧ ResourceACL.readWithoutTimeout.isSome
        ∧ ResourceACL.updateWithoutTimeout.isSome ∧ ResourceACL.deleteWithoutTimeout.isSome
        ∧ ResourceACL.existsFn.isSome
        ∧ ResourceOpenzfsFileSystem.existsFn.isSome) := by
  decide

/-- Claim C4 (amended): `ResourceACL` and `ResourceOpenzfsFileSystem`
each provide exactly the four Create/Read/Update/Delete handlers (as the
`...WithoutTimeout` fields) plus an importer, and neither sets the
deprecated `Exists` handler. -/
theorem c4_amended_handlers :
    ResourceACL.createWithoutTimeout = some HandlerFn.aclCreateFn
      ∧ ResourceACL.readWithoutTimeout = some HandlerFn.aclReadFn
      ∧ ResourceACL.updateWithoutTimeout = some HandlerFn.aclUpdateFn
      ∧ ResourceACL.deleteWithoutTimeout = some HandlerFn.aclDeleteFn
      ∧ ResourceACL.existsFn = none
      ∧ ResourceACL.hasImporter = true
      ∧ ResourceOpenzfsFileSystem.createWithoutTimeout = some HandlerFn.fsxCreateFn
      ∧ ResourceOpenzfsFileSystem.readWithoutTimeout = some HandlerFn.fsxReadFn
      ∧ ResourceOpenzfsFileSystem.updateWithoutTimeout = some HandlerFn.fsxUpdateFn
      ∧ ResourceOpenzfsFileSystem.deleteWithoutTimeout = some HandlerFn.fsxDeleteFn
      ∧ ResourceOpenzfsFileSystem.existsFn = none
      ∧ ResourceOpenzfsFileSystem.hasImporter = true := by
  decide

/-! ## Claim C5 -/

/-- Claim C5: the disk IOPS expand/flatten pair is a round trip on
one-element configurations whose element maps "mode" to a non-empty
string and "iops" to an integer, and both functions map the empty
list / nil struct to nil / the empty list. -/
theorem c5_diskIops_roundtrip (m : DiskIopsMapEntry) (v : String) (n : Int)
    (hm : m.mode = some (TFValue.str v)) (hv : 0 < v.length)
    (hi : m.iops = some (TFValue.int n)) :
    flattenOpenzfsFileDiskIopsConfiguration (expandOpenzfsFileDiskIopsConfiguration [m]) = [m]
      ∧ expandOpenzfsFileDiskIopsConfiguration [] = none
      ∧ flattenOpenzfsFileDiskIopsConfiguration none = [] := by
  refine ⟨?_, rfl, rfl⟩
  cases m with
  | mk mo io =>
      simp only at hm hi
      subst hm
      subst hi
      simp [expandOpenzfsFileDiskIopsConfiguration, flattenOpenzfsFileDiskIopsConfiguration, hv]

/-- Witness for claim C5 at a concrete configuration. -/
theorem c5_witness :
    flattenOpenzfsFileDiskIopsConfiguration (expandOpenzfsFileDiskIopsConfiguration
        [{ mode := some (TFValue.str "AUTOMATIC"), iops := some (TFValue.int 3000) }]) =
      [{ mode := some (TFValue.str "AUTOMATIC"), iops := some (TFValue.int 3000) }]
      ∧ expandOpenzfsFileDiskIopsConfiguration [] = none
      ∧ flattenOpenzfsFileDiskIopsConfiguration none = [] :=
  c5_diskIops_roundtrip
    { mode := some (TFValue.str "AUTOMATIC"), iops := some (TFValue.int 3000) }
    "AUTOMATIC" 3000 rfl (by decide) rfl

/-! ## Claim C8 -/

/-- Claim C8: both Delete handlers return no error diagnostics when the
delete call fails with the resource-specific not-found code
(`ACLNotFoundFault`, `FileSystemNotFound`), and in that case no deletion
waiter is invoked. -/
theorem c8_delete_notfound (m1 m2 : String) (w1 w2 : Option AWSErr) :
    (resourceACLDelete
        { deleteErr := some { code := "ACLNotFoundFault", msg := m1 }, waitErr := w1 }).diags = []
      ∧ (resourceACLDelete
        { deleteErr := some { code := "ACLNotFoundFault", msg := m1 }, waitErr := w1 }).trace.any evIsWait = false
      ∧ (resourceOpenzfsFileSystemDelete
        { deleteErr := some { code := "FileSystemNotFound", msg := m2 }, waitErr := w2 }).diags = []
      ∧ (resourceOpenzfsFileSystemDelete
        { deleteErr := some { code := "FileSystemNotFound", msg := m2 }, waitErr := w2 }).trace.any evIsWait = false := by
  exact ⟨rfl, rfl, rfl, rfl⟩

/-! ## Claim C9 -/

/-- Claim C9: when the resource is missing, each Read handler clears the
id and reports success for a non-new resource, and returns an error
diagnostic (leaving the id in place) for a newly created one; the
CloudTrail message is "not found after creation". -/
theorem c9_read_notfound (vErr ls es isv : Option AWSErr) (hc hi : Bool) :
    ((resourceACLRead false { find := FindResult.notFound }).idCleared = true
      ∧ (resourceACLRead false { find := FindResult.notFound }).diags = [])
    ∧ ((resourceACLRead true { find := FindResult.notFound }).diags ≠ []
      ∧ (resourceACLRead true { find := FindResult.notFound }).idCleared = false)
    ∧ ((resourceOpenzfsFileSystemRead false
          { find := FindResult.notFound, findVolumeErr := vErr }).idCleared = true
      ∧ (resourceOpenzfsFileSystemRead false
          { find := FindResult.notFound, findVolumeErr := vErr }).diags = [])
    ∧ ((resourceOpenzfsFileSystemRead true
          { find := FindResult.notFound, findVolumeErr := vErr }).diags ≠ []
      ∧ (resourceOpenzfsFileSystemRead true
          { find := FindResult.notFound, findVolumeErr := vErr }).idCleared = false)
    ∧ ((resourceCloudTrailRead false
          { describeErr := none, trailFound := false, logStatusErr := ls, eventSelErr := es,
            hasCustomEventSelectors := hc, hasInsightSelectors := hi, insightSelErr := isv }).idCleared = true
      ∧ (resourceCloudTrailRead false
          { describeErr := none, trailFound := false, logStatusErr := ls, eventSelErr := es,
            hasCustomEventSelectors := hc, hasInsightSelectors := hi, insightSelErr := isv }).diags = [])
    ∧ ((resourceCloudTrailRead true
          { describeErr := none, trailFound := false, logStatusErr := ls, eventSelErr := es,
            hasCustomEventSelectors := hc, hasInsightSelectors := hi, insightSelErr := isv }).diags =
            ["reading CloudTrail Trail: not found after creation"]
      ∧ (resourceCloudTrailRead true
          { describeErr := none, trailFound := false, logStatusErr := ls, eventSelErr := es,
            hasCustomEventSelectors := hc, hasInsightSelectors := hi, insightSelErr := isv }).idCleared = false) := by
  refine ⟨⟨rfl, rfl⟩, ⟨by simp [resourceACLRead], rfl⟩,
    ⟨rfl, rfl⟩, ⟨by simp [resourceOpenzfsFileSystemRead], rfl⟩,
    ⟨rfl, rfl⟩, ⟨rfl, rfl⟩⟩

/-! ## Claim C10 -/

/-- Claim C10: `IsZero` returns true exactly when the pointer is nil or
points at the zero value of the pointee type; in particular it is true
on a pointer to a freshly zero-initialised value and false on a pointer
to any non-zero value. -/
theorem c10_IsZero (α : Type) [GoZero α] [DecidableEq α] (v : Option α) (x : α)
    (hx : x ≠ GoZero.zeroValue) :
    (IsZero v = true ↔ v = none ∨ v = some (GoZero.zeroValue : α))
      ∧ IsZero (some (GoZero.zeroValue : α)) = true
      ∧ IsZero (some x) = false := by
  refine ⟨?_, by simp [IsZero], by simp [IsZero, hx]⟩
  cases v with
  | none => simp [IsZero]
  | some y => simp [IsZero]

/-- Witness for claim C10 at the sample struct type. -/
theorem c10_witness : IsZero (some ({ x := 1, y := 2 } : GoPoint)) = false :=
  (c10_IsZero GoPoint (some { x := 1, y := 2 }) { x := 1, y := 2 } (by decide)).2.2

/-! ## Claim C7 -/

/-- Appending strings concatenates their character data. -/
lemma string_data_append (a b : String) : (a ++ b).data = a.data ++ b.data := by
  cases a
  cases b
  rfl

/-- The CRC-32 register fold distributes over list append. -/
lemma crc32Fold_append (k : Nat) (l1 l2 : List Char) :
    crc32Fold k (l1 ++ l2) = crc32Fold (crc32Fold k l1) l2 := by
  simp [crc32Fold, List.foldl_append]

/-- The CRC-32 register fold distributes over string append. -/
lemma crc32Fold_str_append (k : Nat) (a b : String) :
    crc32Fold k (a ++ b).data = crc32Fold (crc32Fold k a.data) b.data := by
  rw [string_data_append, crc32Fold_append]

set_option maxRecDepth 6000 in
/-- Claim C7: `IPPermissionIDHash` is deterministic in the group id,
rule type and permission contents, and reproduces every hardcoded
identifier of `TestIPPermissionIDHash`; in particular the tcp/80/8000/
10.0.0.0/8 permission hashes to "sgrule-3403497314" as an ingress rule
on group "sg-12345" and to the different "sgrule-1173186295" as an
egress rule. -/
theorem c7_IPPermissionIDHash (sg rt : String) (a b : IpPermission) (hab : a = b) :
    IPPermissionIDHash sg rt a = IPPermissionIDHash sg rt b
      ∧ IPPermissionIDHash "sg-12345" "ingress" permSimple = "sgrule-3403497314"
      ∧ IPPermissionIDHash "sg-12345" "egress" permSimple = "sgrule-1173186295"
      ∧ IPPermissionIDHash "sg-12345" "egress" permEgressAll = "sgrule-766323498"
      ∧ IPPermissionIDHash "sg-12345" "egress" permVpcSecurityGroupSource = "sgrule-351225364"
      ∧ IPPermissionIDHash "sg-12345" "egress" permSecurityGroupSource = "sgrule-2198807188" := by
  refine ⟨by rw [hab], ?_, ?_, ?_, ?_, ?_⟩
  · have hbuf : ipPermissionBuffer "sg-12345" "ingress" permSimple =
        "sg-12345-80-8000-tcp-" ++ "ingress-10.0.0.0/8-" := by decide
    have hsh : StringHashcode ("sg-12345-80-8000-tcp-" ++ "ingress-10.0.0.0/8-") = 3403497314 := by
      rw [StringHashcode, crc32OfString, crc32Fold_str_append]
      rw [show crc32Fold 0xFFFFFFFF ("sg-12345-80-8000-tcp-").data = 3342775237 from by decide]
      rw [show crc32Fold 3342775237 ("ingress-10.0.0.0/8-").data = 891469981 from by decide]
      decide
    simp only [IPPermissionIDHash]
    rw [hbuf, hsh]
    decide
  · have hbuf : ipPermissionBuffer "sg-12345" "egress" permSimple =
        "sg-12345-80-8000-tcp-" ++ "egress-10.0.0.0/8-" := by decide
    have hsh : StringHashcode ("sg-12345-80-8000-tcp-" ++ "egress-10.0.0.0/8-") = 1173186295 := by
      rw [StringHashcode, crc32OfString, crc32Fold_str_append]
      rw [show crc32Fold 0xFFFFFFFF ("sg-12345-80-8000-tcp-").data = 3342775237 from by decide]
      rw [show crc32Fold 3342775237 ("egress-10.0.0.0/8-").data = 3121781000 from by decide]
      decide
    simp only [IPPermissionIDHash]
    rw [hbuf, hsh]
    decide
  · have hbuf : ipPermissionBuffer "sg-12345" "egress" permEgressAll =
        "sg-12345--1-egress-" ++ "10.0.0.0/8-" := by decide
    have hsh : StringHashcode ("sg-12345--1-egress-" ++ "10.0.0.0/8-") = 766323498 := by
      rw [StringHashcode, crc32OfString, crc32Fold_str_append]
      rw [show crc32Fold 0xFFFFFFFF ("sg-12345--1-egress-").data = 2605089010 from by decide]
      rw [show crc32Fold 2605089010 ("10.0.0.0/8-").data = 3528643797 from by decide]
      decide
    simp only [IPPermissionIDHash]
    rw [hbuf, hsh]
    decide
  · have hbuf : ipPermissionBuffer "sg-12345" "egress" permVpcSecurityGroupSource =
        ("sg-12345-80-8000-tcp-egress-" ++ "sg-12345678--sg-12345678--") ++ "sg-987654321--" := by decide
    have hsh : StringHashcode
        (("sg-12345-80-8000-tcp-egress-" ++ "sg-12345678--sg-12345678--") ++ "sg-987654321--") = 351225364 := by
      rw [StringHashcode, crc32OfString, crc32Fold_str_append, crc32Fold_str_append]
      rw [show crc32Fold 0xFFFFFFFF ("sg-12345-80-8000-tcp-egress-").data = 2736736728 from by decide]
      rw [show crc32Fold 2736736728 ("sg-12345678--sg-12345678--").data = 1402170474 from by decide]
      rw [show crc32Fold 1402170474 ("sg-987654321--").data = 3943741931 from by decide]
      decide
    simp only [IPPermissionIDHash]
    rw [hbuf, hsh]
    decide
  · have hbuf : ipPermissionBuffer "sg-12345" "egress" permSecurityGroupSource =
        (("sg-12345-80-8000-tcp-egress-" ++ "-my-other-security-group-") ++ "-my-security-group-")
          ++ "-my-security-group-" := by decide
    have hsh : StringHashcode
        ((("sg-12345-80-8000-tcp-egress-" ++ "-my-other-security-group-") ++ "-my-security-group-")
          ++ "-my-security-group-") = 2198807188 := by
      rw [StringHashcode, crc32OfString, crc32Fold_str_append, crc32Fold_str_append, crc32Fold_str_append]
      rw [show crc32Fold 0xFFFFFFFF ("sg-12345-80-8000-tcp-egress-").data = 2736736728 from by decide]
      rw [show crc32Fold 2736736728 ("-my-other-security-group-").data = 3739569214 from by decide]
      rw [show crc32Fold 3739569214 ("-my-security-group-").data = 1994592986 from by decide]
      rw [show crc32Fold 1994592986 ("-my-security-group-").data = 2096160107 from by decide]
      decide
    simp only [IPPermissionIDHash]
    rw [hbuf, hsh]
    decide

/-- Witness for claim C7's determinism conjunct at a concrete
permission. -/
theorem c7_witness :
    IPPermissionIDHash "sg-12345" "ingress" permSimple =
      IPPermissionIDHash "sg-12345" "ingress" permSimple :=
  (c7_IPPermissionIDHash "sg-12345" "ingress" permSimple permSimple rfl).1

/-! ## Claim C1 -/

/-- Trace of `resourceACLRead` in every branch: the single
`FindACLByName` lookup. -/
lemma aclRead_trace (b : Bool) (env : ACLReadEnv) :
    (resourceACLRead b env).trace = [Ev.readApi "FindACLByName"] := by
  rcases env with ⟨f⟩
  cases f <;> cases b <;> rfl

/-- Claim C1: when attributes other than tags changed and the server
state is available, `resourceACLUpdate` computes `UserNamesToAdd` as
exactly the names in the new set but not the old set, computes
`UserNamesToRemove` as exactly the names in the old set but not the new
set that are still among the server-reported user names, and issues the
`UpdateACL` call iff at least one of the two lists is non-empty. -/
theorem c1_resourceACLUpdate (oldSet newSet : List String) (env : ACLUpdateEnv) (acl : ACL)
    (hfind : env.find = FindResult.found acl) :
    (resourceACLUpdate true oldSet newSet env).updateInput =
        some { userNamesToAdd := aclUserNamesToAdd oldSet newSet,
               userNamesToRemove := aclUserNamesToRemove oldSet newSet acl.userNames }
      ∧ (∀ u, u ∈ aclUserNamesToAdd oldSet newSet ↔ u ∈ newSet ∧ u ∉ oldSet)
      ∧ (∀ u, u ∈ aclUserNamesToRemove oldSet newSet acl.userNames ↔
            u ∈ oldSet ∧ u ∉ newSet ∧ u ∈ acl.userNames)
      ∧ (calledAPI "UpdateACL" (resourceACLUpdate true oldSet newSet env).trace = true ↔
            (aclUserNamesToAdd oldSet newSet ≠ [] ∨
              aclUserNamesToRemove oldSet newSet acl.userNames ≠ [])) := by
  obtain ⟨f, ue, we, re⟩ := env
  replace hfind : f = FindResult.found acl := hfind
  subst hfind
  refine ⟨?_, ?_, ?_, ?_⟩
  · simp only [resourceACLUpdate, if_true]
    split
    · cases ue with
      | some e => rfl
      | none => cases we with
        | some e => rfl
        | none => rfl
    · rfl
  · intro u
    simp [aclUserNamesToAdd, List.mem_filter]
  · intro u
    simp [aclUserNamesToRemove, List.mem_filter, and_assoc]
    tauto
  · constructor
    · intro hcall
      by_contra hno
      push_neg at hno
      obtain ⟨ha, hr⟩ := hno
      simp only [resourceACLUpdate, if_true, ha, hr, List.isEmpty_nil] at hcall
      rw [aclRead_trace] at hcall
      simp [calledAPI] at hcall
    · intro hor
      have hcond : (!(aclUserNamesToAdd oldSet newSet).isEmpty
          || !(aclUserNamesToRemove oldSet newSet acl.userNames).isEmpty) = true := by
        rcases hor with h | h <;> simp [List.isEmpty_iff, h]
      simp only [resourceACLUpdate, if_true, hcond, if_true]
      cases ue with
      | some e => simp [calledAPI]
      | none => cases we with
        | some e => simp [calledAPI]
        | none => simp [calledAPI]

/-- Witness for claim C1: old set (alice, bob), new set (bob, carol),
server still reporting only alice. -/
theorem c1_witness :
    (resourceACLUpdate true ["alice", "bob"] ["bob", "carol"]
        { find := FindResult.found { name := "acl1", userNames := ["alice"] },
          updateErr := none, waitErr := none,
          readEnv := { find := FindResult.found { name := "acl1", userNames := ["alice"] } } }).updateInput =
      some { userNamesToAdd := aclUserNamesToAdd ["alice", "bob"] ["bob", "carol"],
             userNamesToRemove := aclUserNamesToRemove ["alice", "bob"] ["bob", "carol"] ["alice"] } :=
  (c1_resourceACLUpdate ["alice", "bob"] ["bob", "carol"]
    { find := FindResult.found { name := "acl1", userNames := ["alice"] },
      updateErr := none, waitErr := none,
      readEnv := { find := FindResult.found { name := "acl1", userNames := ["alice"] } } }
    { name := "acl1", userNames := ["alice"] } rfl).1

/-! ## Claim C2 -/

/-- Claim C2 counterexample: the matcher's counting scheme accepts a
rule whose duplicated entry covers two distinct expected CIDR blocks.
The group's only ingress rule lists 10.0.0.0/8 twice; the expected
permission lists 10.0.0.0/8 and 10.1.0.0/16.  The code succeeds although
10.1.0.0/16 occurs nowhere in the rule, so the claimed
"every block of p occurs among r's entries" characterisation is
violated. -/
theorem c2_counterexample :
    testAccCheckSecurityGroupRuleAttributes
        { ipPermissions :=
            [{ ipRanges := [{ cidrIp := some "10.0.0.0/8" }, { cidrIp := some "10.0.0.0/8" }] }],
          ipPermissionsEgress := [] }
        (some { ipRanges := [{ cidrIp := some "10.0.0.0/8" }, { cidrIp := some "10.1.0.0/16" }] })
        "ingress" = Except.ok ()
      ∧ specCheckSucceeds
        { ipPermissions :=
            [{ ipRanges := [{ cidrIp := some "10.0.0.0/8" }, { cidrIp := some "10.0.0.0/8" }] }],
          ipPermissionsEgress := [] }
        (some { ipRanges := [{ cidrIp := some "10.0.0.0/8" }, { cidrIp := some "10.1.0.0/16" }] })
        "ingress" = false := by
  exact ⟨rfl, rfl⟩

/-- Per-rule acceptance condition that the code actually implements
(claim C2 amended): the scalar fields agree whenever both sides set
them, and in each category the number of equal non-nil entry pairs
between `p`'s and `r`'s lists, counted with multiplicity, is at least
the number of `p`'s entries — so a duplicated entry in `r` can stand in
for several distinct entries of `p`. -/
def specRuleMatchesAmended (p r : IpPermission) : Prop :=
  intOptMatch p.toPort r.toPort = true ∧ intOptMatch p.fromPort r.fromPort = true
    ∧ strOptMatch p.ipProtocol r.ipProtocol = true
    ∧ p.ipRanges.length ≤
        countMatchingPairs (p.ipRanges.map (fun x => x.cidrIp)) (r.ipRanges.map (fun x => x.cidrIp))
    ∧ p.ipv6Ranges.length ≤
        countMatchingPairs (p.ipv6Ranges.map (fun x => x.cidrIpv6)) (r.ipv6Ranges.map (fun x => x.cidrIpv6))
    ∧ p.userIdGroupPairs.length ≤
        countMatchingPairs (p.userIdGroupPairs.map (fun x => x.groupId)) (r.userIdGroupPairs.map (fun x => x.groupId))
    ∧ p.prefixListIds.length ≤
        countMatchingPairs (p.prefixListIds.map (fun x => x.listId)) (r.prefixListIds.map (fun x => x.listId))

/-- The Go loop body accepts a rule exactly under the amended per-rule
condition. -/
lemma ruleMatchesGo_iff (p r : IpPermission) :
    ruleMatchesGo p r = true ↔ specRuleMatchesAmended p r := by
  simp [ruleMatchesGo, specRuleMatchesAmended, Bool.and_eq_true, decide_eq_true_eq, and_assoc]

/-- The last-match fold finds a rule exactly when some rule in the list
matches. -/
lemma findMatchingRule_aux (p : IpPermission) (rules : List IpPermission)
    (acc : Option IpPermission) :
    (rules.foldl (fun acc r => if ruleMatchesGo p r then some r else acc) acc).isSome = true ↔
      acc.isSome = true ∨ ∃ r ∈ rules, ruleMatchesGo p r = true := by
  induction rules generalizing acc with
  | nil => simp
  | cons hd tl ih =>
      simp only [List.foldl_cons]
      rw [ih]
      by_cases h : ruleMatchesGo p hd = true
      · simp [h]
      · simp [h]

/-- Claim C2 (amended): `testAccCheckSecurityGroupRuleAttributes`
succeeds iff the rule list for the type is non-empty and contains a rule
accepted by the multiplicity-counting condition; on an empty rule list
it returns the "No IPPerms" error. -/
theorem c2_checkRuleAttributes_amended (group : SecurityGroup) (p0 : Option IpPermission)
    (ruleType : String) :
    (testAccCheckSecurityGroupRuleAttributes group p0 ruleType = Except.ok () ↔
        rulesForType group ruleType ≠ [] ∧
          ∃ r ∈ rulesForType group ruleType, specRuleMatchesAmended (p0.getD defaultPermission) r)
      ∧ (rulesForType group ruleType = [] →
          testAccCheckSecurityGroupRuleAttributes group p0 ruleType = Except.error "No IPPerms") := by
  constructor
  · by_cases hemp : (rulesForType group ruleType).isEmpty = true
    · have h0 : rulesForType group ruleType = [] := List.isEmpty_iff.mp hemp
      simp [testAccCheckSecurityGroupRuleAttributes, hemp, h0]
    · have hne : rulesForType group ruleType ≠ [] := by
        simpa [List.isEmpty_iff] using hemp
      have hiff := findMatchingRule_aux (p0.getD defaultPermission) (rulesForType group ruleType) none
      simp only [Option.isSome_none, Bool.false_eq_true, false_or] at hiff
      cases hfind : findMatchingRule (p0.getD defaultPermission) (rulesForType group ruleType) with
      | some r =>
          have hex := hiff.mp (by rw [findMatchingRule] at hfind; rw [hfind]; rfl)
          simp only [testAccCheckSecurityGroupRuleAttributes, hemp, Bool.false_eq_true,
            if_false, hfind]
          constructor
          · intro _
            exact ⟨hne, by simpa [ruleMatchesGo_iff] using hex⟩
          · intro _
            trivial
      | none =>
          have hnoex : ¬ ∃ r ∈ rulesForType group ruleType,
              ruleMatchesGo (p0.getD defaultPermission) r = true := by
            intro hex
            have := hiff.mpr hex
            rw [findMatchingRule] at hfind
            rw [hfind] at this
            simp at this
          simp only [testAccCheckSecurityGroupRuleAttributes, hemp, Bool.false_eq_true,
            if_false, hfind]
          constructor
          · intro h
            exact absurd h (by simp)
          · intro ⟨_, hex⟩
            exact absurd (by simpa [ruleMatchesGo_iff] using hex) hnoex
  · intro h
    simp [testAccCheckSecurityGroupRuleAttributes, h]

/-- Witness for claim C2's amended theorem: the empty rule list yields
the "No IPPerms" error. -/
theorem c2_witness :
    testAccCheckSecurityGroupRuleAttributes
        { ipPermissions := [], ipPermissionsEgress := [] } none "ingress" =
      Except.error "No IPPerms" :=
  (c2_checkRuleAttributes_amended
    { ipPermissions := [], ipPermissionsEgress := [] } none "ingress").2 rfl

/-! ## Claim C3 -/

/-- Claim C3 counterexample: `resourceCloudTrailCreate` can return no
error diagnostics although its mutating `CreateTrail` call is never
followed by any waiter — the handler defines no waiter at all, so the
universally quantified claim fails on this execution. -/
theorem c3_counterexample :
    (fun out => out.diags = [] ∧ calledAPI "CreateTrail" out.trace = true
        ∧ waiterAfterEachB out.trace = false)
      (resourceCloudTrailCreate
        { fuel := 0, res := fun _ => none, enableLogging := false, setLoggingErr := none,
          hasEventSel := false, eventSelErr := none, hasAdvEventSel := false,
          advEventSelErr := none, hasInsightSel := false, insightSelErr := none,
          readEnv := { describeErr := none, trailFound := true, logStatusErr := none,
                       eventSelErr := none, hasCustomEventSelectors := false,
                       hasInsightSelectors := false, insightSelErr := none } }) :=
  ⟨rfl, rfl, rfl⟩

/-- A trace whose events are all non-mutating (or failed mutating)
satisfies the waiter-follows property. -/
lemma waiterAfterOkMutB_of_no_mut (tr : List Ev) (h : ∀ e ∈ tr, evIsMutOk e = false) :
    waiterAfterOkMutB tr = true := by
  induction tr with
  | nil => rfl
  | cons e rest ih =>
      have he : evIsMutOk e = false := h e (List.mem_cons_self e rest)
      have hrest : ∀ x ∈ rest, evIsMutOk x = false := fun x hx => h x (List.mem_cons_of_mem e hx)
      simp [waiterAfterOkMutB, he, ih hrest]

/-- The waiter-follows property is preserved by appending a suffix with
no successful mutating calls. -/
lemma waiterAfterOkMutB_append (t1 t2 : List Ev) (h1 : waiterAfterOkMutB t1 = true)
    (h2 : ∀ e ∈ t2, evIsMutOk e = false) :
    waiterAfterOkMutB (t1 ++ t2) = true := by
  induction t1 with
  | nil => exact waiterAfterOkMutB_of_no_mut t2 h2
  | cons e rest ih =>
      simp only [waiterAfterOkMutB, Bool.and_eq_true] at h1
      obtain ⟨hhead, htail⟩ := h1
      simp only [List.cons_append, waiterAfterOkMutB, Bool.and_eq_true]
      refine ⟨?_, ih htail⟩
      cases hm : evIsMutOk e with
      | false => simp
      | true =>
          simp only [hm, if_true] at hhead ⊢
          show (rest ++ t2).any evIsOkWait = true
          rw [List.any_append, hhead]
          simp

/-- The ACL Read tail performs no mutating calls. -/
lemma aclRead_no_mut (b : Bool) (env : ACLReadEnv) :
    ∀ e ∈ (resourceACLRead b env).trace, evIsMutOk e = false := by
  intro e he
  rw [aclRead_trace] at he
  simp at he
  subst he
  rfl

/-- Trace of `resourceOpenzfsFileSystemRead` in every branch: one or two
find calls. -/
lemma fsxRead_trace (b : Bool) (env : FsxReadEnv) :
    (resourceOpenzfsFileSystemRead b env).trace = [Ev.readApi "FindFileSystemByID"]
      ∨ (resourceOpenzfsFileSystemRead b env).trace =
          [Ev.readApi "FindFileSystemByID", Ev.readApi "FindVolumeByID"] := by
  obtain ⟨f, fv⟩ := env
  cases f with
  | notFound => cases b <;> (left; rfl)
  | err e => left; rfl
  | found fs =>
      obtain ⟨w, l, o, z⟩ := fs
      cases w <;> cases l <;> cases o <;> cases z <;> cases fv <;>
        first
          | (left; rfl)
          | (right; rfl)

/-- The FSx Read tail performs no mutating calls. -/
lemma fsxRead_no_mut (b : Bool) (env : FsxReadEnv) :
    ∀ e ∈ (resourceOpenzfsFileSystemRead b env).trace, evIsMutOk e = false := by
  intro e he
  rcases fsxRead_trace b env with h | h <;> rw [h] at he <;> simp at he
  · subst he; rfl
  · rcases he with he | he <;> subst he <;> rfl

/-- Claim C3 (amended): in the MemoryDB ACL and FSx OpenZFS handlers,
every execution that returns no error diagnostics has each successful
mutating call followed by a waiter invocation that returned without
error; this excludes `resourceCloudTrailCreate`, which has no waiter
(see the counterexample), and failed delete calls (not-found
short-circuit), whose waiter is deliberately skipped. -/
theorem c3_waiters_amended
    (name : String) (e1 : ACLCreateEnv)
    (hc : Bool) (o n : List String) (e2 : ACLUpdateEnv)
    (e3 : DeleteEnv)
    (fsId : String) (e4 : FsxCreateEnv)
    (e5 : FsxUpdateEnv)
    (e6 : DeleteEnv)
    (h1 : (resourceACLCreate name e1).diags = [])
    (h2 : (resourceACLUpdate hc o n e2).diags = [])
    (h3 : (resourceACLDelete e3).diags = [])
    (h4 : (resourceOpenzfsFileSystemCreate fsId e4).diags = [])
    (h5 : (resourceOpenzfsFileSystemUpdate e5).diags = [])
    (h6 : (resourceOpenzfsFileSystemDelete e6).diags = []) :
    waiterAfterOkMutB (resourceACLCreate name e1).trace = true
      ∧ waiterAfterOkMutB (resourceACLUpdate hc o n e2).trace = true
      ∧ waiterAfterOkMutB (resourceACLDelete e3).trace = true
      ∧ waiterAfterOkMutB (resourceOpenzfsFileSystemCreate fsId e4).trace = true
      ∧ waiterAfterOkMutB (resourceOpenzfsFileSystemUpdate e5).trace = true
      ∧ waiterAfterOkMutB (resourceOpenzfsFileSystemDelete e6).trace = true := by
  refine ⟨?_, ?_, ?_, ?_, ?_, ?_⟩
  · obtain ⟨ce, we, re⟩ := e1
    cases ce with
    | some e => simp [resourceACLCreate, waiterAfterOkMutB, evIsMutOk]
    | none =>
        cases we with
        | some e => exact absurd h1 (by simp [resourceACLCreate])
        | none =>
            simp only [resourceACLCreate]
            exact waiterAfterOkMutB_append _ _ (by decide) (aclRead_no_mut true re)
  · obtain ⟨f, ue, we, re⟩ := e2
    cases hc with
    | false =>
        simp only [resourceACLUpdate, Bool.false_eq_true, if_false]
        exact waiterAfterOkMutB_of_no_mut _ (aclRead_no_mut false re)
    | true =>
        cases f with
        | err e => simp [resourceACLUpdate, waiterAfterOkMutB, evIsMutOk]
        | notFound => simp [resourceACLUpdate, waiterAfterOkMutB, evIsMutOk]
        | found acl =>
            by_cases hcond : (!(aclUserNamesToAdd o n).isEmpty
                || !(aclUserNamesToRemove o n acl.userNames).isEmpty) = true
            · cases ue with
              | some e => simp [resourceACLUpdate, hcond, waiterAfterOkMutB, evIsMutOk]
              | none =>
                  cases we with
                  | some e => exact absurd h2 (by simp [resourceACLUpdate, hcond])
                  | none =>
                      simp only [resourceACLUpdate, if_true, hcond]
                      exact waiterAfterOkMutB_append _ _ (by decide) (aclRead_no_mut false re)
            · replace hcond : (!(aclUserNamesToAdd o n).isEmpty
                  || !(aclUserNamesToRemove o n acl.userNames).isEmpty) = false := by
                simpa using hcond
              simp only [resourceACLUpdate, if_true, hcond, Bool.false_eq_true, if_false]
              exact waiterAfterOkMutB_append _ _ (by decide) (aclRead_no_mut false re)
  · obtain ⟨de, we⟩ := e3
    cases de with
    | some e =>
        by_cases hn : e.code = "ACLNotFoundFault"
        · simp [resourceACLDelete, hn, waiterAfterOkMutB, evIsMutOk]
        · simp [resourceACLDelete, hn, waiterAfterOkMutB, evIsMutOk]
    | none =>
        cases we with
        | some e => exact absurd h3 (by simp [resourceACLDelete])
        | none => simp [resourceACLDelete, waiterAfterOkMutB, evIsMutOk, evIsOkWait]
  · obtain ⟨hb, ce, we, re⟩ := e4
    cases ce with
    | some e => cases hb <;> simp [resourceOpenzfsFileSystemCreate, waiterAfterOkMutB, evIsMutOk]
    | none =>
        cases we with
        | some e => exact absurd h4 (by cases hb <;> simp [resourceOpenzfsFileSystemCreate])
        | none =>
            cases hb with
            | true =>
                simp only [resourceOpenzfsFileSystemCreate, if_true]
                exact waiterAfterOkMutB_append _ _ (by decide) (fsxRead_no_mut true re)
            | false =>
                simp only [resourceOpenzfsFileSystemCreate, Bool.false_eq_true, if_false]
                exact waiterAfterOkMutB_append _ _ (by decide) (fsxRead_no_mut true re)
  · obtain ⟨hch, ue, w1, w2, rc, uv, w3, re⟩ := e5
    cases hch with
    | false =>
        simp only [resourceOpenzfsFileSystemUpdate, Bool.false_eq_true, if_false]
        exact waiterAfterOkMutB_of_no_mut _ (fsxRead_no_mut false re)
    | true =>
        cases ue with
        | some e => simp [resourceOpenzfsFileSystemUpdate, waiterAfterOkMutB, evIsMutOk]
        | none =>
          cases w1 with
          | some e => exact absurd h5 (by simp [resourceOpenzfsFileSystemUpdate])
          | none =>
            cases w2 with
            | some e => exact absurd h5 (by simp [resourceOpenzfsFileSystemUpdate])
            | none =>
              cases rc with
              | false =>
                  simp only [resourceOpenzfsFileSystemUpdate, Bool.false_eq_true, if_false, if_true]
                  exact waiterAfterOkMutB_append _ _ (by decide) (fsxRead_no_mut false re)
              | true =>
                cases uv with
                | some e =>
                    simp [resourceOpenzfsFileSystemUpdate, waiterAfterOkMutB, evIsMutOk, evIsOkWait]
                | none =>
                  cases w3 with
                  | some e => exact absurd h5 (by simp [resourceOpenzfsFileSystemUpdate])
                  | none =>
                      simp only [resourceOpenzfsFileSystemUpdate, if_true]
                      exact waiterAfterOkMutB_append _ _ (by decide) (fsxRead_no_mut false re)
  · obtain ⟨de, we⟩ := e6
    cases de with
    | some e =>
        by_cases hn : e.code = "FileSystemNotFound"
        · simp [resourceOpenzfsFileSystemDelete, hn, waiterAfterOkMutB, evIsMutOk]
        · simp [resourceOpenzfsFileSystemDelete, hn, waiterAfterOkMutB, evIsMutOk]
    | none =>
        cases we with
        | some e => exact absurd h6 (by simp [resourceOpenzfsFileSystemDelete])
        | none => simp [resourceOpenzfsFileSystemDelete, waiterAfterOkMutB, evIsMutOk, evIsOkWait]

/-- All-success environment for the FSx Read tail, used by witnesses. -/
def fsxReadOkEnv : FsxReadEnv :=
  { find := FindResult.found
      { hasWindowsConfig := false, hasLustreConfig := false,
        hasOntapConfig := false, hasOpenzfsConfig := true },
    findVolumeErr := none }

/-- All-success environment for the ACL Read tail, used by witnesses. -/
def aclReadOkEnv : ACLReadEnv :=
  { find := FindResult.found { name := "acl1", userNames := [] } }

/-- All-success environment for `resourceACLCreate`, used by witnesses. -/
def aclCreateOkEnv : ACLCreateEnv :=
  { createErr := none, waitErr := none, readEnv := aclReadOkEnv }

/-- All-success environment for `resourceACLUpdate`, used by witnesses. -/
def aclUpdateOkEnv : ACLUpdateEnv :=
  { find := FindResult.found { name := "acl1", userNames := ["x"] },
    updateErr := none, waitErr := none, readEnv := aclReadOkEnv }

/-- All-success environment for `resourceOpenzfsFileSystemCreate`, used
by witnesses. -/
def fsxCreateOkEnv : FsxCreateEnv :=
  { hasBackupId := false, createErr := none, waitErr := none, readEnv := fsxReadOkEnv }

/-- All-success environment for `resourceOpenzfsFileSystemUpdate`, used
by witnesses. -/
def fsxUpdateOkEnv : FsxUpdateEnv :=
  { hasChangesExceptTags := true, updateErr := none, waitUpdatedErr := none,
    waitAdminErr := none, hasRootVolumeChange := true, updateVolumeErr := none,
    waitVolumeErr := none, readEnv := fsxReadOkEnv }

/-- All-success environment for a Delete handler, used by witnesses. -/
def deleteOkEnv : DeleteEnv :=
  { deleteErr := none, waitErr := none }

/-- Witness for claim C3's amended theorem: all-success executions of
the six handlers. -/
theorem c3_witness :
    waiterAfterOkMutB (resourceACLCreate "acl1" aclCreateOkEnv).trace = true
      ∧ waiterAfterOkMutB (resourceACLUpdate true ["x"] [] aclUpdateOkEnv).trace = true
      ∧ waiterAfterOkMutB (resourceACLDelete deleteOkEnv).trace = true
      ∧ waiterAfterOkMutB (resourceOpenzfsFileSystemCreate "fs-1" fsxCreateOkEnv).trace = true
      ∧ waiterAfterOkMutB (resourceOpenzfsFileSystemUpdate fsxUpdateOkEnv).trace = true
      ∧ waiterAfterOkMutB (resourceOpenzfsFileSystemDelete deleteOkEnv).trace = true :=
  c3_waiters_amended "acl1" aclCreateOkEnv true ["x"] [] aclUpdateOkEnv deleteOkEnv
    "fs-1" fsxCreateOkEnv fsxUpdateOkEnv deleteOkEnv rfl rfl rfl rfl rfl rfl

/-! ## Claim C6 -/

/-- Whether an event is a `CreateTrail` attempt. -/
def evIsCreateTrail : Ev → Bool
  | Ev.mut a _ => a == "CreateTrail"
  | _ => false

/-- Number of `CreateTrail` events in an attempt trace. -/
lemma countP_createTrailEvents (res : Nat → Option AWSErr) (m : Nat) :
    (createTrailEvents res m).countP evIsCreateTrail = m := by
  simp [createTrailEvents, List.countP_map]
  rw [show ((evIsCreateTrail ∘ fun k => Ev.mut "CreateTrail" (res k))) = fun _ => true from ?_]
  · simp [List.countP_true]
  · funext k
    rfl

/-- The CloudTrail Read tail makes no `CreateTrail` attempt. -/
lemma ctRead_no_createTrail (b : Bool) (env : CTReadEnv) :
    (resourceCloudTrailRead b env).trace.countP evIsCreateTrail = 0 := by
  obtain ⟨de, tf, ls, es, hc, hi, is⟩ := env
  cases de with
  | some e => rfl
  | none =>
      cases tf with
      | false => cases b <;> rfl
      | true =>
          cases ls with
          | some e => rfl
          | none =>
              cases es with
              | some e => rfl
              | none =>
                  cases hi with
                  | false => rfl
                  | true =>
                      cases is with
                      | none => rfl
                      | some e =>
                          by_cases hn : e.code = "InsightNotEnabledException" <;>
                            simp [resourceCloudTrailRead, hn, evIsCreateTrail]

/-- A non-`CreateTrail` post-create step preserves the attempt count
(success case). -/
lemma ctStep_inl_count (flag : Bool) (api : String) (errv : Option AWSErr) (emsg : String)
    (t t2 : List Ev) (heq : ctStep flag api errv emsg t = Sum.inl t2)
    (hapi : (api == "CreateTrail") = false) :
    t2.countP evIsCreateTrail = t.countP evIsCreateTrail := by
  cases flag with
  | false =>
      simp only [ctStep, Bool.false_eq_true, if_false, Sum.inl.injEq] at heq
      rw [← heq]
  | true =>
      cases errv with
      | some e => simp [ctStep] at heq
      | none =>
          simp only [ctStep, if_true, Sum.inl.injEq] at heq
          rw [← heq]
          simp [List.countP_append, evIsCreateTrail, hapi]

/-- A non-`CreateTrail` post-create step preserves the attempt count
(error case). -/
lemma ctStep_inr_count (flag : Bool) (api : String) (errv : Option AWSErr) (emsg : String)
    (t : List Ev) (p : List String × List Ev) (heq : ctStep flag api errv emsg t = Sum.inr p)
    (hapi : (api == "CreateTrail") = false) :
    p.2.countP evIsCreateTrail = t.countP evIsCreateTrail := by
  cases flag with
  | false => simp [ctStep] at heq
  | true =>
      cases errv with
      | none => simp [ctStep] at heq
      | some e =>
          simp only [ctStep, if_true, Sum.inr.injEq] at heq
          rw [← heq]
          simp [List.countP_append, evIsCreateTrail, hapi]

/-- The post-create phase makes no further `CreateTrail` attempt. -/
lemma ctAfter_count (env : CTCreateEnv) (tr : List Ev) :
    (cloudTrailAfterCreate env tr).trace.countP evIsCreateTrail =
      tr.countP evIsCreateTrail := by
  unfold cloudTrailAfterCreate
  rcases hs1 : ctStep env.enableLogging "StartLogging" env.setLoggingErr "creating CloudTrail: " tr with t1 | p1 <;>
    simp only [hs1]
  · rcases hs2 : ctStep env.hasEventSel "PutEventSelectors" env.eventSelErr "creating CloudTrail: " t1 with t2 | p2 <;>
      simp only [hs2]
    · rcases hs3 : ctStep env.hasAdvEventSel "PutEventSelectors" env.advEventSelErr "creating CloudTrail: " t2 with t3 | p3 <;>
        simp only [hs3]
      · rcases hs4 : ctStep env.hasInsightSel "PutInsightSelectors" env.insightSelErr "creating CloudTrail: " t3 with t4 | p4 <;>
          simp only [hs4]
        · rw [List.countP_append, ctRead_no_createTrail, Nat.add_zero,
            ctStep_inl_count _ _ _ _ _ _ hs4 rfl, ctStep_inl_count _ _ _ _ _ _ hs3 rfl,
            ctStep_inl_count _ _ _ _ _ _ hs2 rfl, ctStep_inl_count _ _ _ _ _ _ hs1 rfl]
        · rw [ctStep_inr_count _ _ _ _ _ _ hs4 rfl, ctStep_inl_count _ _ _ _ _ _ hs3 rfl,
            ctStep_inl_count _ _ _ _ _ _ hs2 rfl, ctStep_inl_count _ _ _ _ _ _ hs1 rfl]
      · rw [ctStep_inr_count _ _ _ _ _ _ hs3 rfl,
          ctStep_inl_count _ _ _ _ _ _ hs2 rfl, ctStep_inl_count _ _ _ _ _ _ hs1 rfl]
    · rw [ctStep_inr_count _ _ _ _ _ _ hs2 rfl, ctStep_inl_count _ _ _ _ _ _ hs1 rfl]
  · rw [ctStep_inr_count _ _ _ _ _ _ hs1 rfl]


/-- Unfolding equation of `retryLoop` with no retries left. -/
lemma retryLoop_zero (res : Nat → Option AWSErr) (start : Nat) :
    retryLoop res 0 start =
      match res start with
      | none => (start + 1, LoopOut.ok)
      | some e =>
          match retryableCT e with
          | true => (start + 1, LoopOut.timedOut e)
          | false => (start + 1, LoopOut.failedNR e) := rfl

/-- Unfolding equation of `retryLoop` with retries left. -/
lemma retryLoop_succ (res : Nat → Option AWSErr) (fuel start : Nat) :
    retryLoop res (fuel + 1) start =
      match res start with
      | none => (start + 1, LoopOut.ok)
      | some e =>
          match retryableCT e with
          | true => retryLoop res fuel (start + 1)
          | false => (start + 1, LoopOut.failedNR e) := rfl

/-- Invariant of the retry loop: attempt indices are bounded by the
budget, every attempt before the last ended in a retryable error, and
the outcome determines the last attempt's result. -/
lemma retryLoop_spec (res : Nat → Option AWSErr) :
    ∀ (fuel start : Nat),
      start < (retryLoop res fuel start).1
      ∧ (retryLoop res fuel start).1 ≤ start + fuel + 1
      ∧ (∀ k, start ≤ k → k + 1 < (retryLoop res fuel start).1 →
          ∃ e, res k = some e ∧ retryableCT e = true)
      ∧ ((retryLoop res fuel start).2 = LoopOut.ok →
          res ((retryLoop res fuel start).1 - 1) = none)
      ∧ (∀ e, (retryLoop res fuel start).2 = LoopOut.failedNR e →
          res ((retryLoop res fuel start).1 - 1) = some e ∧ retryableCT e = false)
      ∧ (∀ e, (retryLoop res fuel start).2 = LoopOut.timedOut e →
          (retryLoop res fuel start).1 = start + fuel + 1
            ∧ res ((retryLoop res fuel start).1 - 1) = some e ∧ retryableCT e = true) := by
  intro fuel
  induction fuel with
  | zero =>
      intro start
      rw [retryLoop_zero]
      cases hres : res start with
      | none =>
          try dsimp only
          refine ⟨by omega, by omega, ?_, ?_, ?_, ?_⟩
          · intro k hk hk2
            simp at hk2
            omega
          · intro _
            simpa using hres
          · intro e he
            simp at he
          · intro e he
            simp at he
      | some e =>
          cases hr : retryableCT e with
          | true =>
              simp only [hr]
              try dsimp only
              refine ⟨by omega, by omega, ?_, ?_, ?_, ?_⟩
              · intro k hk hk2
                simp at hk2
                omega
              · intro h
                simp at h
              · intro e2 he
                simp at he
              · intro e2 he
                simp only [LoopOut.timedOut.injEq] at he
                subst he
                exact ⟨by simp, by simpa using hres, hr⟩
          | false =>
              simp only [hr]
              try dsimp only
              refine ⟨by omega, by omega, ?_, ?_, ?_, ?_⟩
              · intro k hk hk2
                simp at hk2
                omega
              · intro h
                simp at h
              · intro e2 he
                simp only [LoopOut.failedNR.injEq] at he
                subst he
                exact ⟨by simpa using hres, hr⟩
              · intro e2 he
                simp at he
  | succ fuel ih =>
      intro start
      rw [retryLoop_succ]
      cases hres : res start with
      | none =>
          try dsimp only
          refine ⟨by omega, by omega, ?_, ?_, ?_, ?_⟩
          · intro k hk hk2
            simp at hk2
            omega
          · intro _
            simpa using hres
          · intro e he
            simp at he
          · intro e he
            simp at he
      | some e =>
          cases hr : retryableCT e with
          | true =>
              simp only [hr]
              try dsimp only
              obtain ⟨ih1, ih2, ih3, ih4, ih5, ih6⟩ := ih (start + 1)
              refine ⟨by omega, by omega, ?_, ih4, ih5, ?_⟩
              · intro k hk hk2
                by_cases hks : k = start
                · subst hks
                  exact ⟨e, hres, hr⟩
                · exact ih3 k (by omega) hk2
              · intro e2 he
                obtain ⟨ha, hb, hc⟩ := ih6 e2 he
                exact ⟨by omega, hb, hc⟩
          | false =>
              simp only [hr]
              try dsimp only
              refine ⟨by omega, by omega, ?_, ?_, ?_, ?_⟩
              · intro k hk hk2
                simp at hk2
                omega
              · intro h
                simp at h
              · intro e2 he
                simp only [LoopOut.failedNR.injEq] at he
                subst he
                exact ⟨by simpa using hres, hr⟩
              · intro e2 he
                simp at he

/-- Total number of `CreateTrail` attempts made by the handler: the
loop's attempts, plus exactly one more when the loop timed out. -/
lemma ctCreate_count (env : CTCreateEnv) :
    (resourceCloudTrailCreate env).trace.countP evIsCreateTrail =
      (match (retryLoop env.res env.fuel 0).2 with
       | LoopOut.timedOut _ => (retryLoop env.res env.fuel 0).1 + 1
       | _ => (retryLoop env.res env.fuel 0).1) := by
  rcases hlr : retryLoop env.res env.fuel 0 with ⟨nn, out⟩
  cases out with
  | ok =>
      simp only [resourceCloudTrailCreate, hlr]
      try dsimp only
      rw [ctAfter_count, countP_createTrailEvents]
  | failedNR e =>
      simp only [resourceCloudTrailCreate, hlr]
      try dsimp only
      rw [countP_createTrailEvents]
  | timedOut e =>
      simp only [resourceCloudTrailCreate, hlr]
      try dsimp only
      cases hres2 : env.res nn with
      | some e2 =>
          simp only [hres2]
          try dsimp only
          rw [countP_createTrailEvents]
      | none =>
          simp only [hres2]
          try dsimp only
          rw [ctAfter_count, countP_createTrailEvents]

/-- Claim C6: the `CreateTrail` call is retried only while the error is
`InvalidCloudWatchLogsRoleArnException` or
`InvalidCloudWatchLogsLogGroupArnException` with a message containing
"Access denied."; a non-retryable error ends the create with an error
diagnostic and no further attempts; and when the retry loop times out,
exactly one additional `CreateTrail` attempt is made before failing or
succeeding. -/
theorem c6_cloudTrailCreate_retry (env : CTCreateEnv) :
    (∀ k, k + 1 < (retryLoop env.res env.fuel 0).1 →
        ∃ e, env.res k = some e ∧ retryableCT e = true)
    ∧ (∀ e, (retryLoop env.res env.fuel 0).2 = LoopOut.failedNR e →
        retryableCT e = false
          ∧ (resourceCloudTrailCreate env).diags = ["creating CloudTrail: " ++ e.code]
          ∧ (resourceCloudTrailCreate env).trace.countP evIsCreateTrail =
              (retryLoop env.res env.fuel 0).1)
    ∧ (∀ e, (retryLoop env.res env.fuel 0).2 = LoopOut.timedOut e →
        (retryLoop env.res env.fuel 0).1 = env.fuel + 1
          ∧ (resourceCloudTrailCreate env).trace.countP evIsCreateTrail =
              (retryLoop env.res env.fuel 0).1 + 1
          ∧ ∀ e2, env.res (retryLoop env.res env.fuel 0).1 = some e2 →
              (resourceCloudTrailCreate env).diags = ["creating CloudTrail: " ++ e2.code])
    ∧ ((retryLoop env.res env.fuel 0).2 = LoopOut.ok →
        (resourceCloudTrailCreate env).trace.countP evIsCreateTrail =
          (retryLoop env.res env.fuel 0).1) := by
  obtain ⟨s1, s2, s3, s4, s5, s6⟩ := retryLoop_spec env.res env.fuel 0
  have hcount := ctCreate_count env
  refine ⟨?_, ?_, ?_, ?_⟩
  · intro k hk
    exact s3 k (Nat.zero_le k) hk
  · intro e he
    refine ⟨(s5 e he).2, ?_, ?_⟩
    · rcases hlr : retryLoop env.res env.fuel 0 with ⟨nn, out⟩
      rw [hlr] at he
      replace he : out = LoopOut.failedNR e := he
      subst he
      simp only [resourceCloudTrailCreate, hlr]
    · rw [he] at hcount
      simpa using hcount
  · intro e he
    have h6 := s6 e he
    refine ⟨by omega, ?_, ?_⟩
    · rw [he] at hcount
      simpa using hcount
    · intro e2 hres2
      rcases hlr : retryLoop env.res env.fuel 0 with ⟨nn, out⟩
      rw [hlr] at he hres2
      replace he : out = LoopOut.timedOut e := he
      subst he
      replace hres2 : env.res nn = some e2 := hres2
      simp only [resourceCloudTrailCreate, hlr]
      try dsimp only
      simp only [hres2]
  · intro hok
    rw [hok] at hcount
    simpa using hcount

/-- Environment whose first `CreateTrail` attempt fails with a
non-retryable error, used by the C6 witness. -/
def ctFailEnv : CTCreateEnv :=
  { fuel := 0, res := fun _ => some { code := "InvalidParameterValue", msg := "boom" },
    enableLogging := false, setLoggingErr := none, hasEventSel := false, eventSelErr := none,
    hasAdvEventSel := false, advEventSelErr := none, hasInsightSel := false, insightSelErr := none,
    readEnv := { describeErr := none, trailFound := true, logStatusErr := none, eventSelErr := none,
                 hasCustomEventSelectors := false, hasInsightSelectors := false,
                 insightSelErr := none } }

/-- Witness for claim C6: a non-retryable first error stops the loop,
produces the error diagnostic and leaves a single attempt. -/
theorem c6_witness :
    retryableCT { code := "InvalidParameterValue", msg := "boom" } = false
      ∧ (resourceCloudTrailCreate ctFailEnv).diags =
          ["creating CloudTrail: " ++ ({ code := "InvalidParameterValue", msg := "boom" } : AWSErr).code]
      ∧ (resourceCloudTrailCreate ctFailEnv).trace.countP evIsCreateTrail =
          (retryLoop ctFailEnv.res ctFailEnv.fuel 0).1 :=
  (c6_cloudTrailCreate_retry ctFailEnv).2.1
    { code := "InvalidParameterValue", msg := "boom" } rfl
